import Mathlib

/-!
Shallow embedding of the action-dispatch and transform layer of an
embodied-agent simulator (source files: src/esp/scene/ObjectControls.cpp and
src/esp/agent/Agent.cpp).

The scene-graph node itself is an external capability (spec sections 3 and 6):
a node holds a translation and a rotation quaternion; the nodes handled by this
core are taken in the world frame, so a node's absolute translation is its own
translation.  Floating-point scalars are modelled by real numbers, and the
"within floating-point tolerance" phrases of the spec become exact equalities.
-/

noncomputable section

/-- A 3-component real vector, modelling the float 3-vectors of the source. -/
@[ext]
structure Vec3 where
  x : ℝ
  y : ℝ
  z : ℝ

instance : Add Vec3 := ⟨fun a b => ⟨a.x + b.x, a.y + b.y, a.z + b.z⟩⟩

instance : Sub Vec3 := ⟨fun a b => ⟨a.x - b.x, a.y - b.y, a.z - b.z⟩⟩

instance : Neg Vec3 := ⟨fun a => ⟨-a.x, -a.y, -a.z⟩⟩

instance : SMul ℝ Vec3 := ⟨fun c a => ⟨c * a.x, c * a.y, c * a.z⟩⟩

instance : Zero Vec3 := ⟨⟨0, 0, 0⟩⟩

@[simp] theorem Vec3.add_x (a b : Vec3) : (a + b).x = a.x + b.x := rfl

@[simp] theorem Vec3.add_y (a b : Vec3) : (a + b).y = a.y + b.y := rfl

@[simp] theorem Vec3.add_z (a b : Vec3) : (a + b).z = a.z + b.z := rfl

@[simp] theorem Vec3.sub_x (a b : Vec3) : (a - b).x = a.x - b.x := rfl

@[simp] theorem Vec3.sub_y (a b : Vec3) : (a - b).y = a.y - b.y := rfl

@[simp] theorem Vec3.sub_z (a b : Vec3) : (a - b).z = a.z - b.z := rfl

@[simp] theorem Vec3.smul_x (c : ℝ) (a : Vec3) : (c • a).x = c * a.x := rfl

@[simp] theorem Vec3.smul_y (c : ℝ) (a : Vec3) : (c • a).y = c * a.y := rfl

@[simp] theorem Vec3.smul_z (c : ℝ) (a : Vec3) : (c • a).z = c * a.z := rfl

/-- A 4-component real vector: the x,y,z,w storage of an agent-state rotation. -/
@[ext]
structure Vec4 where
  x : ℝ
  y : ℝ
  z : ℝ
  w : ℝ

/-- Embed a 3-vector as a purely imaginary quaternion. -/
def quatOfVec3 (v : Vec3) : Quaternion ℝ := ⟨0, v.x, v.y, v.z⟩

/-- The imaginary part of a quaternion, as a 3-vector. -/
def imVec (q : Quaternion ℝ) : Vec3 := ⟨q.imI, q.imJ, q.imK⟩

/-- Rotate a vector by a quaternion: the vector part of q v q⁻¹ (the general
transformVector of the quaternion library, which uses the true inverse). -/
def rotV (q : Quaternion ℝ) (v : Vec3) : Vec3 := imVec (q * quatOfVec3 v * q⁻¹)

/-- Half-angle in radians of an angle given in degrees. -/
def halfRad (angleDeg : ℝ) : ℝ := angleDeg * Real.pi / 360

/-- The unit quaternion of a rotation by the given angle (degrees) about the
local y axis, as built by the quaternion library from angle and axis. -/
def rotQuatY (angleDeg : ℝ) : Quaternion ℝ :=
  ⟨Real.cos (halfRad angleDeg), 0, Real.sin (halfRad angleDeg), 0⟩

/-- The unit quaternion of a rotation by the given angle (degrees) about the
local x axis. -/
def rotQuatX (angleDeg : ℝ) : Quaternion ℝ :=
  ⟨Real.cos (halfRad angleDeg), Real.sin (halfRad angleDeg), 0, 0⟩

/-- Quaternion normalization as in the source's normalized(): divide by the norm. -/
def normalizedQ (q : Quaternion ℝ) : Quaternion ℝ := ‖q‖⁻¹ • q

/-- A quaternion is normalized when its squared norm is 1 (the exact model of
the tolerance-based isNormalized check of the source's math library). -/
def isNormalizedQ (q : Quaternion ℝ) : Prop := Quaternion.normSq q = 1

/-- Modelled from the spec: a node of the external scene-graph capability
(spec sections 3 and 6), holding its translation and rotation.  The nodes this
core manipulates are taken in the world frame: the absolute translation of a
node is its own translation. -/
@[ext]
structure SceneNode where
  translation : Vec3
  rotation : Quaternion ℝ

/-- Modelled from the spec: translate, a world-frame additive translation
(applied after all other transformations; does not use the node's rotation). -/
def SceneNode.translate (n : SceneNode) (v : Vec3) : SceneNode :=
  { n with translation := n.translation + v }

/-- Modelled from the spec: translateLocal, a local translation - the argument
is expressed in the node's own frame and is rotated by the node's rotation. -/
def SceneNode.translateLocal (n : SceneNode) (v : Vec3) : SceneNode :=
  { n with translation := n.translation + rotV n.rotation v }

/-- Modelled from the spec: rotate about the local y axis by an angle in
degrees (local rotations compose on the right). -/
def SceneNode.rotateYLocal (n : SceneNode) (angleDeg : ℝ) : SceneNode :=
  { n with rotation := n.rotation * rotQuatY angleDeg }

/-- Modelled from the spec: rotate about the local x axis by an angle in
degrees. -/
def SceneNode.rotateXLocal (n : SceneNode) (angleDeg : ℝ) : SceneNode :=
  { n with rotation := n.rotation * rotQuatX angleDeg }

/-- Setter for the node translation. -/
def SceneNode.setTranslation (n : SceneNode) (v : Vec3) : SceneNode :=
  { n with translation := v }

/-- Setter for the node rotation. -/
def SceneNode.setRotation (n : SceneNode) (q : Quaternion ℝ) : SceneNode :=
  { n with rotation := q }

/-- The node's absolute (world-space) translation.  Modelled from the spec: the
nodes handled by this core live in the world frame, so this is the node's own
translation. -/
def SceneNode.absoluteTranslation (n : SceneNode) : Vec3 := n.translation

/-- Modelled from the spec: the node's own right axis, expressed in the frame
consumed by translateLocal.  The source composes the transformation's right
column with translateLocal; the spec fixes the composite semantics (translate
along the node's own local right axis), which this local-frame constant
together with the rotating translateLocal reproduces. -/
def SceneNode.right (_ : SceneNode) : Vec3 := ⟨1, 0, 0⟩

/-- Modelled from the spec: the node's own backward axis, expressed in the
frame consumed by translateLocal (see SceneNode.right). -/
def SceneNode.backward (_ : SceneNode) : Vec3 := ⟨0, 0, 1⟩

/-- Source: moveRight translates the node along its own local right axis. -/
def moveRight (object : SceneNode) (distance : ℝ) : SceneNode :=
  object.translateLocal (distance • object.right)

/-- Source: moveLeft is moveRight with the negated distance. -/
def moveLeft (object : SceneNode) (distance : ℝ) : SceneNode :=
  moveRight object (-distance)

/-- Source: moveUp translates along the fixed world up axis (a plain translate
of (0,1,0) times the distance; not a local translation). -/
def moveUp (object : SceneNode) (distance : ℝ) : SceneNode :=
  object.translate (distance • (⟨0, 1, 0⟩ : Vec3))

/-- Source: moveDown is moveUp with the negated distance. -/
def moveDown (object : SceneNode) (distance : ℝ) : SceneNode :=
  moveUp object (-distance)

/-- Source: moveBackward translates the node along its own local backward axis. -/
def moveBackward (object : SceneNode) (distance : ℝ) : SceneNode :=
  object.translateLocal (distance • object.backward)

/-- Source: moveForward is moveBackward with the negated distance. -/
def moveForward (object : SceneNode) (distance : ℝ) : SceneNode :=
  moveBackward object (-distance)

/-- Source: turnLeft rotates about the local y axis by the angle in degrees,
then re-normalizes the resulting rotation. -/
def turnLeft (object : SceneNode) (angleInDegrees : ℝ) : SceneNode :=
  let o1 := object.rotateYLocal angleInDegrees
  o1.setRotation (normalizedQ o1.rotation)

/-- Source: turnRight is turnLeft with the negated angle. -/
def turnRight (object : SceneNode) (angleInDegrees : ℝ) : SceneNode :=
  turnLeft object (-angleInDegrees)

/-- Source: lookUp rotates about the local x axis by the angle in degrees,
then re-normalizes the resulting rotation. -/
def lookUp (object : SceneNode) (angleInDegrees : ℝ) : SceneNode :=
  let o1 := object.rotateXLocal angleInDegrees
  o1.setRotation (normalizedQ o1.rotation)

/-- Source: lookDown is lookUp with the negated angle. -/
def lookDown (object : SceneNode) (angleInDegrees : ℝ) : SceneNode :=
  lookUp object (-angleInDegrees)

/-- Lookup in an association list keyed by strings (models the find / at
operations of the string-keyed maps of the source). -/
def assocLookup {α : Type _} : List (String × α) → String → Option α
  | [], _ => none
  | (k, v) :: rest, key => if k = key then some v else assocLookup rest key

/-- The move-filter hook signature: pre-motion position and post-motion
position in, corrected position out. -/
def MoveFilterFunc : Type := Vec3 → Vec3 → Vec3

/-- Modelled from the spec (section 4.3): the default filter hook is the
identity on the end position. -/
def defaultMoveFilter : MoveFilterFunc := fun _ endPos => endPos

/-- The dispatcher state: the name-keyed registry of transform primitives
(populated once at construction) and the installed move-filter hook. -/
structure ObjectControls where
  moveFuncMap : List (String × (SceneNode → ℝ → SceneNode))
  moveFilterFunc : MoveFilterFunc

/-- Source: the constructor registers exactly the ten primitives; the filter
hook starts as the default identity hook. -/
def ObjectControls.init : ObjectControls :=
  { moveFuncMap :=
      [("moveRight", moveRight), ("moveLeft", moveLeft), ("moveUp", moveUp),
       ("moveDown", moveDown), ("moveForward", moveForward),
       ("moveBackward", moveBackward), ("turnLeft", turnLeft),
       ("turnRight", turnRight), ("lookUp", lookUp), ("lookDown", lookDown)],
    moveFilterFunc := defaultMoveFilter }

/-- Source: setMoveFilterFunction replaces the installed hook. -/
def ObjectControls.setMoveFilterFunction (c : ObjectControls) (f : MoveFilterFunc) :
    ObjectControls :=
  { c with moveFilterFunc := f }

/-- Source: ObjectControls action.  Returns the dispatcher (returned by
reference in the source), the node after the call, and the list of error
messages emitted on the diagnostic channel during the call. -/
def ObjectControls.action (c : ObjectControls) (object : SceneNode)
    (actName : String) (distance : ℝ) (applyFilter : Bool) :
    ObjectControls × SceneNode × List String :=
  match assocLookup c.moveFuncMap actName with
  | some moveFunc =>
    if applyFilter then
      let startPosition := object.absoluteTranslation
      let o1 := moveFunc object distance
      let endPos := o1.absoluteTranslation
      let filteredEndPosition := c.moveFilterFunc startPosition endPos
      (c, o1.translate (filteredEndPosition - endPos), [])
    else
      (c, moveFunc object distance, [])
  | none =>
    (c, object, ["Tried to perform unknown action with name " ++ actName])

/-- An action specification: primitive name and actuation parameter map. -/
structure ActionSpec where
  name : String
  actuation : List (String × ℝ)

/-- Modelled from the spec: per-agent configuration.  Only the action space is
consulted by the dispatch logic embedded here. -/
structure AgentConfiguration where
  actionSpace : List (String × ActionSpec)

/-- The agent state snapshot: position and rotation stored as x,y,z,w. -/
@[ext]
structure AgentState where
  position : Vec3
  rotation : Vec4

/-- The quaternion denoted by an x,y,z,w rotation vector (vector part first,
scalar last, as consumed by setState). -/
def quatOfVec4 (v : Vec4) : Quaternion ℝ := ⟨v.w, v.x, v.y, v.z⟩

/-- Modelled from the spec: a sensor attached under the agent node carries its
own scene node and the pose derived from its declarative specification
(setTransformationFromSpec re-derives the node pose from the latter). -/
structure SensorModel where
  node : SceneNode
  specPose : SceneNode

/-- Modelled from the spec: re-derive the sensor node pose from its
declarative specification. -/
def SensorModel.setTransformationFromSpec (s : SensorModel) : SensorModel :=
  { s with node := s.specPose }

/-- The agent: its own body node, the sensors attached under that node, its
configuration, and its dispatcher. -/
structure AgentModel where
  body : SceneNode
  sensors : List (String × SensorModel)
  configuration : AgentConfiguration
  controls : ObjectControls

/-- Source: the fixed closed set of the six body-action names. -/
def BodyActions : List String :=
  ["moveRight", "moveLeft", "moveForward", "moveBackward", "turnLeft", "turnRight"]

/-- Source: hasAction is a pure membership query on the configured action space. -/
def AgentModel.hasAction (a : AgentModel) (actionName : String) : Bool :=
  (assocLookup a.configuration.actionSpace actionName).isSome

/-- Outcome of Agent act: the boolean handled / not-handled return, or the
out-of-range exception escaping from the at lookup of the actuation map.  Each
constructor carries the agent as observable after the call. -/
inductive ActResult where
  | notHandled (a : AgentModel)
  | handled (a : AgentModel)
  | outOfRange (a : AgentModel)

/-- Source: Agent act.  An action name absent from the action space is not
handled (false, no side effect).  A present action whose ActionSpec name is a
body action is dispatched once to the agent body node with the filter applied;
any other present action is dispatched with no filter to every attached sensor
node, one invocation per sensor.  The actuation map is read at the key amount
inside each branch (in the sensor branch once per loop iteration, so an empty
sensor list never reads it); a missing key there raises out-of-range. -/
def AgentModel.act (a : AgentModel) (actionName : String) : ActResult :=
  match assocLookup a.configuration.actionSpace actionName with
  | none => .notHandled a
  | some actionSpec =>
    if actionSpec.name ∈ BodyActions then
      match assocLookup actionSpec.actuation "amount" with
      | none => .outOfRange a
      | some amount =>
        .handled { a with
          body := (a.controls.action a.body actionSpec.name amount true).2.1 }
    else
      match a.sensors with
      | [] => .handled a
      | _ :: _ =>
        match assocLookup actionSpec.actuation "amount" with
        | none => .outOfRange a
        | some amount =>
          .handled { a with
            sensors := a.sensors.map fun p =>
              (p.1, { p.2 with
                node := (a.controls.action p.2.node actionSpec.name amount false).2.1 }) }

/-- Source: getState writes the node's current absolute translation and its
rotation in x,y,z,w order into the state snapshot. -/
def AgentModel.getState (a : AgentModel) : AgentState :=
  { position := a.body.absoluteTranslation,
    rotation := ⟨a.body.rotation.imI, a.body.rotation.imJ,
                 a.body.rotation.imK, a.body.rotation.re⟩ }

/-- Outcome of Agent setState: normal completion, or the fatal assertion on a
non-normalized rotation.  Both constructors carry the agent as observable at
that point (for the assertion: the state already mutated before the check). -/
inductive SetStateResult where
  | ok (a : AgentModel)
  | assertFailed (a : AgentModel)

open scoped Classical

/-- Source: setState commits the state's translation onto the node, then
builds the rotation quaternion from the x,y,z,w vector, asserts that it is
normalized (fatal on violation), commits it, and, when resetSensors is set,
re-derives every attached sensor pose from its declarative specification. -/
def AgentModel.setState (a : AgentModel) (state : AgentState)
    (resetSensors : Bool) : SetStateResult :=
  let a1 := { a with body := a.body.setTranslation state.position }
  let rot := quatOfVec4 state.rotation
  if isNormalizedQ rot then
    let a2 := { a1 with body := a1.body.setRotation rot }
    if resetSensors then
      .ok { a2 with
        sensors := a2.sensors.map fun p => (p.1, p.2.setTransformationFromSpec) }
    else
      .ok a2
  else
    .assertFailed a1

/-- A concrete node at the origin with the identity rotation. -/
def node1 : SceneNode := ⟨⟨0, 0, 0⟩, 1⟩

/-- A concrete sensor node. -/
def node2 : SceneNode := ⟨⟨1, 1, 1⟩, 1⟩

/-- A concrete sensor whose spec-derived pose coincides with its current pose. -/
def sensor1 : SensorModel := ⟨node2, node2⟩

/-- A concrete body ActionSpec with an actuation amount. -/
def bodySpec : ActionSpec := ⟨"moveForward", [("amount", 1)]⟩

/-- A concrete sensor ActionSpec with an actuation amount. -/
def sensorSpec : ActionSpec := ⟨"lookUp", [("amount", 30)]⟩

/-- A concrete agent with one sensor and a two-action space. -/
def agent1 : AgentModel :=
  { body := node1,
    sensors := [("rgb", sensor1)],
    configuration := ⟨[("moveF", bodySpec), ("peek", sensorSpec)]⟩,
    controls := ObjectControls.init }

/-- A concrete agent with no sensors whose action space contains a sensor
action with an actuation map lacking the amount key. -/
def agentNoSensors : AgentModel :=
  { body := node1,
    sensors := [],
    configuration := ⟨[("peekNoAmount", ⟨"lookUp", []⟩)]⟩,
    controls := ObjectControls.init }

/-- A concrete agent with one sensor whose action space contains a body action
and a sensor action, both with actuation maps lacking the amount key. -/
def agentBadActuation : AgentModel :=
  { body := node1,
    sensors := [("rgb", sensor1)],
    configuration := ⟨[("forwardNoAmount", ⟨"moveForward", []⟩),
                      ("peekNoAmount", ⟨"lookUp", []⟩)]⟩,
    controls := ObjectControls.init }

/-- A concrete agent state whose rotation vector is not normalized. -/
def badState : AgentState := ⟨⟨5, 6, 7⟩, ⟨0, 0, 0, 2⟩⟩

/-- A concrete agent state with the identity rotation (normalized). -/
def goodState : AgentState := ⟨⟨5, 6, 7⟩, ⟨0, 0, 0, 1⟩⟩

theorem normSq_rotQuatY (a : ℝ) : Quaternion.normSq (rotQuatY a) = 1 := by
  rw [rotQuatY, Quaternion.normSq_def']
  simp [Real.cos_sq_add_sin_sq]

theorem normSq_rotQuatX (a : ℝ) : Quaternion.normSq (rotQuatX a) = 1 := by
  rw [rotQuatX, Quaternion.normSq_def']
  simp [Real.cos_sq_add_sin_sq]

theorem norm_eq_one_of_normSq (q : Quaternion ℝ) (h : Quaternion.normSq q = 1) :
    ‖q‖ = 1 := by
  have h2 : ‖q‖ * ‖q‖ = 1 := by rw [← Quaternion.normSq_eq_norm_mul_self, h]
  rcases mul_self_eq_one_iff.mp h2 with h3 | h3
  · exact h3
  · nlinarith [norm_nonneg q]

theorem norm_rotQuatY (a : ℝ) : ‖rotQuatY a‖ = 1 :=
  norm_eq_one_of_normSq _ (normSq_rotQuatY a)

theorem norm_rotQuatX (a : ℝ) : ‖rotQuatX a‖ = 1 :=
  norm_eq_one_of_normSq _ (normSq_rotQuatX a)

theorem rotQuatY_ne_zero (a : ℝ) : rotQuatY a ≠ 0 := by
  intro h
  have := norm_rotQuatY a
  rw [h, norm_zero] at this
  exact one_ne_zero this.symm

theorem rotQuatX_ne_zero (a : ℝ) : rotQuatX a ≠ 0 := by
  intro h
  have := norm_rotQuatX a
  rw [h, norm_zero] at this
  exact one_ne_zero this.symm

theorem norm_normalizedQ (q : Quaternion ℝ) (h : q ≠ 0) : ‖normalizedQ q‖ = 1 := by
  have hq : ‖q‖ ≠ 0 := norm_ne_zero_iff.mpr h
  rw [normalizedQ, norm_smul, norm_inv, norm_norm, inv_mul_cancel₀ hq]

theorem normalizedQ_of_norm_one (q : Quaternion ℝ) (h : ‖q‖ = 1) :
    normalizedQ q = q := by
  rw [normalizedQ, h, inv_one, one_smul]

theorem star_rotQuatY (a : ℝ) : star (rotQuatY a) = rotQuatY (-a) := by
  have hh : halfRad (-a) = -halfRad a := by rw [halfRad, halfRad]; ring
  rw [rotQuatY, rotQuatY, QuaternionAlgebra.star_mk, hh, Real.cos_neg, Real.sin_neg]
  ext <;> simp

theorem star_rotQuatX (a : ℝ) : star (rotQuatX a) = rotQuatX (-a) := by
  have hh : halfRad (-a) = -halfRad a := by rw [halfRad, halfRad]; ring
  rw [rotQuatX, rotQuatX, QuaternionAlgebra.star_mk, hh, Real.cos_neg, Real.sin_neg]
  ext <;> simp

theorem rotQuatY_mul_neg (a : ℝ) : rotQuatY a * rotQuatY (-a) = 1 := by
  rw [← star_rotQuatY, Quaternion.self_mul_star, normSq_rotQuatY, Quaternion.coe_one]

theorem rotQuatY_neg_mul (a : ℝ) : rotQuatY (-a) * rotQuatY a = 1 := by
  rw [← star_rotQuatY, Quaternion.star_mul_self, normSq_rotQuatY, Quaternion.coe_one]

theorem rotQuatX_mul_neg (a : ℝ) : rotQuatX a * rotQuatX (-a) = 1 := by
  rw [← star_rotQuatX, Quaternion.self_mul_star, normSq_rotQuatX, Quaternion.coe_one]

theorem rotQuatX_neg_mul (a : ℝ) : rotQuatX (-a) * rotQuatX a = 1 := by
  rw [← star_rotQuatX, Quaternion.star_mul_self, normSq_rotQuatX, Quaternion.coe_one]

theorem quatOfVec3_smul (c : ℝ) (v : Vec3) :
    quatOfVec3 (c • v) = c • quatOfVec3 v := by
  rw [quatOfVec3, quatOfVec3]
  ext <;> simp

theorem imVec_smul (c : ℝ) (q : Quaternion ℝ) : imVec (c • q) = c • imVec q := by
  rw [imVec, imVec]
  ext <;> simp

theorem rotV_smul (q : Quaternion ℝ) (c : ℝ) (v : Vec3) :
    rotV q (c • v) = c • rotV q v := by
  rw [rotV, rotV, quatOfVec3_smul, Algebra.mul_smul_comm, Algebra.smul_mul_assoc,
    imVec_smul]

theorem isNormalizedQ_normalizedQ (q : Quaternion ℝ) (h : q ≠ 0) :
    isNormalizedQ (normalizedQ q) := by
  rw [isNormalizedQ, Quaternion.normSq_eq_norm_mul_self, norm_normalizedQ q h, one_mul]

theorem turn_roundtrip_rotation (q r s : Quaternion ℝ) (hq : ‖q‖ = 1)
    (hr : ‖r‖ = 1) (hrs : r * s = 1) :
    normalizedQ (normalizedQ (q * r) * s) = q := by
  have h1 : ‖q * r‖ = 1 := by rw [norm_mul, hq, hr, one_mul]
  rw [normalizedQ_of_norm_one _ h1, mul_assoc, hrs, mul_one,
    normalizedQ_of_norm_one _ hq]

theorem vec3_add_smul_cancel (t w : Vec3) (m : ℝ) : t + m • w + -m • w = t := by
  ext <;> simp

theorem vec3_add_neg_smul_cancel (t w : Vec3) (m : ℝ) : t + -m • w + m • w = t := by
  ext <;> simp

/-- C8: for every node and magnitude, moveUp translates the node along the
fixed world up axis by the magnitude, leaves the rotation alone, produces a
translation that does not depend on the node's own orientation, and moveDown
is moveUp with the negated magnitude. -/
theorem spec_c8_moveUp_world_axis :
    ∀ (n : SceneNode) (m : ℝ) (t : Vec3) (q1 q2 : Quaternion ℝ),
      (moveUp n m).translation = n.translation + m • (⟨0, 1, 0⟩ : Vec3) ∧
      (moveUp n m).rotation = n.rotation ∧
      (moveUp ⟨t, q1⟩ m).translation = (moveUp ⟨t, q2⟩ m).translation ∧
      moveDown n m = moveUp n (-m) := by
  intro n m t q1 q2
  exact ⟨rfl, rfl, rfl, rfl⟩

/-- C1: for every dispatcher, node, registered primitive name and magnitude,
the filtered action records the absolute start position, applies the primitive
in full, records the absolute end position, asks the filter hook for the
corrected position, and commits the delta corrected minus end as an additive
world translate; the primitive's effect (in particular on the rotation) is
never prevented, and the final resting absolute position is exactly the
filter's corrected position. -/
theorem spec_c1_filtered_action :
    ∀ (c : ObjectControls) (n : SceneNode) (name : String) (m : ℝ)
      (prim : SceneNode → ℝ → SceneNode),
      assocLookup c.moveFuncMap name = some prim →
      c.action n name m true =
        (c, (prim n m).translate
          (c.moveFilterFunc n.absoluteTranslation (prim n m).absoluteTranslation -
            (prim n m).absoluteTranslation), []) ∧
      (c.action n name m true).2.1.rotation = (prim n m).rotation ∧
      (c.action n name m true).2.1.absoluteTranslation =
        c.moveFilterFunc n.absoluteTranslation (prim n m).absoluteTranslation := by
  intro c n name m prim hlook
  have heq : c.action n name m true =
      (c, (prim n m).translate
        (c.moveFilterFunc n.absoluteTranslation (prim n m).absoluteTranslation -
          (prim n m).absoluteTranslation), []) := by
    rw [ObjectControls.action, hlook]
    rfl
  refine ⟨heq, ?_, ?_⟩
  · rw [heq]
    rfl
  · rw [heq]
    show ((prim n m).translate _).translation = _
    rw [SceneNode.translate]
    ext <;> simp [SceneNode.absoluteTranslation]

/-- C1 witness: a concrete filtered call with a reject-all filter hook; the
final resting position is the hook's corrected position. -/
theorem spec_c1_filtered_action_witness :
    ((ObjectControls.init.setMoveFilterFunction fun s _ => s).action node1
        "moveUp" 2 true).2.1.absoluteTranslation =
      (ObjectControls.init.setMoveFilterFunction fun s _ => s).moveFilterFunc
        node1.absoluteTranslation (moveUp node1 2).absoluteTranslation :=
  (spec_c1_filtered_action (ObjectControls.init.setMoveFilterFunction fun s _ => s)
    node1 "moveUp" 2 moveUp rfl).2.2

/-- C3: an action call with a name absent from the primitive registry emits an
error on the diagnostic channel, leaves the node completely unmodified, and
leaves the dispatcher state unchanged, so that subsequent calls behave exactly
as on the original dispatcher. -/
theorem spec_c3_unknown_action :
    ∀ (c : ObjectControls) (n : SceneNode) (name : String) (m : ℝ) (filt : Bool),
      assocLookup c.moveFuncMap name = none →
      c.action n name m filt =
        (c, n, ["Tried to perform unknown action with name " ++ name]) ∧
      (c.action n name m filt).2.1 = n ∧
      (c.action n name m filt).2.2 ≠ [] ∧
      (∀ (n2 : SceneNode) (name2 : String) (m2 : ℝ) (f2 : Bool),
        ((c.action n name m filt).1).action n2 name2 m2 f2 =
          c.action n2 name2 m2 f2) := by
  intro c n name m filt hlook
  have heq : c.action n name m filt =
      (c, n, ["Tried to perform unknown action with name " ++ name]) := by
    rw [ObjectControls.action, hlook]
  refine ⟨heq, by rw [heq], by rw [heq]; simp, ?_⟩
  intro n2 name2 m2 f2
  rw [heq]

/-- C5: after any single invocation of a rotation primitive on any node whose
rotation is nonzero, the node's rotation is a normalized quaternion; since
this holds after every single invocation, it holds regardless of how many
invocations preceded it. -/
theorem spec_c5_rotation_primitives_normalized :
    ∀ (n : SceneNode) (m : ℝ), n.rotation ≠ 0 →
      isNormalizedQ (turnLeft n m).rotation ∧
      isNormalizedQ (turnRight n m).rotation ∧
      isNormalizedQ (lookUp n m).rotation ∧
      isNormalizedQ (lookDown n m).rotation := by
  intro n m h
  refine ⟨?_, ?_, ?_, ?_⟩
  · exact isNormalizedQ_normalizedQ _ (mul_ne_zero h (rotQuatY_ne_zero m))
  · exact isNormalizedQ_normalizedQ _ (mul_ne_zero h (rotQuatY_ne_zero (-m)))
  · exact isNormalizedQ_normalizedQ _ (mul_ne_zero h (rotQuatX_ne_zero m))
  · exact isNormalizedQ_normalizedQ _ (mul_ne_zero h (rotQuatX_ne_zero (-m)))

/-- C5 witness: a concrete turn on a node with the identity rotation yields a
normalized rotation. -/
theorem spec_c5_rotation_primitives_normalized_witness :
    isNormalizedQ (turnLeft node1 90).rotation :=
  (spec_c5_rotation_primitives_normalized node1 90 (by simp [node1])).1

/-- C7: applying a primitive with magnitude m and then its documented opposite
with the same magnitude (equivalently, the primitive itself with the negated
magnitude) restores a node with normalized rotation to its pre-call
translation and rotation, for all five sign-inverse pairs and in both orders. -/
theorem spec_c7_roundtrip :
    ∀ (n : SceneNode) (m : ℝ), isNormalizedQ n.rotation →
      moveLeft (moveRight n m) m = n ∧
      moveRight (moveLeft n m) m = n ∧
      moveDown (moveUp n m) m = n ∧
      moveUp (moveDown n m) m = n ∧
      moveForward (moveBackward n m) m = n ∧
      moveBackward (moveForward n m) m = n ∧
      turnRight (turnLeft n m) m = n ∧
      turnLeft (turnRight n m) m = n ∧
      lookDown (lookUp n m) m = n ∧
      lookUp (lookDown n m) m = n := by
  intro n m h
  have hq : ‖n.rotation‖ = 1 := norm_eq_one_of_normSq _ h
  refine ⟨?_, ?_, ?_, ?_, ?_, ?_, ?_, ?_, ?_, ?_⟩
  · apply SceneNode.ext
    · simp only [moveLeft, moveRight, SceneNode.translateLocal, SceneNode.right, rotV_smul]
      exact vec3_add_smul_cancel _ _ m
    · rfl
  · apply SceneNode.ext
    · simp only [moveLeft, moveRight, SceneNode.translateLocal, SceneNode.right, rotV_smul]
      exact vec3_add_neg_smul_cancel _ _ m
    · rfl
  · apply SceneNode.ext
    · simp only [moveDown, moveUp, SceneNode.translate]
      exact vec3_add_smul_cancel _ _ m
    · rfl
  · apply SceneNode.ext
    · simp only [moveDown, moveUp, SceneNode.translate]
      exact vec3_add_neg_smul_cancel _ _ m
    · rfl
  · apply SceneNode.ext
    · simp only [moveForward, moveBackward, SceneNode.translateLocal,
        SceneNode.backward, rotV_smul]
      exact vec3_add_smul_cancel _ _ m
    · rfl
  · apply SceneNode.ext
    · simp only [moveForward, moveBackward, SceneNode.translateLocal,
        SceneNode.backward, rotV_smul]
      exact vec3_add_neg_smul_cancel _ _ m
    · rfl
  · apply SceneNode.ext
    · rfl
    · exact turn_roundtrip_rotation _ _ _ hq (norm_rotQuatY m) (rotQuatY_mul_neg m)
  · apply SceneNode.ext
    · rfl
    · exact turn_roundtrip_rotation _ _ _ hq (norm_rotQuatY (-m)) (rotQuatY_neg_mul m)
  · apply SceneNode.ext
    · rfl
    · exact turn_roundtrip_rotation _ _ _ hq (norm_rotQuatX m) (rotQuatX_mul_neg m)
  · apply SceneNode.ext
    · rfl
    · exact turn_roundtrip_rotation _ _ _ hq (norm_rotQuatX (-m)) (rotQuatX_neg_mul m)

/-- C7 witness: a concrete translation pair and a concrete turn pair round-trip
on a node with the identity rotation. -/
theorem spec_c7_roundtrip_witness :
    moveLeft (moveRight node1 2) 2 = node1 ∧
    turnRight (turnLeft node1 90) 90 = node1 :=
  ⟨(spec_c7_roundtrip node1 2 (by simp [isNormalizedQ, node1])).1,
   (spec_c7_roundtrip node1 90 (by simp [isNormalizedQ, node1])).2.2.2.2.2.2.1⟩

/-- C3 witness: a concrete unregistered name on the constructed dispatcher is
a no-op on the node and leaves the dispatcher usable. -/
theorem spec_c3_unknown_action_witness :
    (ObjectControls.init.action node1 "fly" 1 true).2.1 = node1 ∧
    (ObjectControls.init.action node1 "fly" 1 true).2.2 ≠ [] :=
  ⟨(spec_c3_unknown_action ObjectControls.init node1 "fly" 1 true rfl).2.1,
   (spec_c3_unknown_action ObjectControls.init node1 "fly" 1 true rfl).2.2.1⟩

/-- C2: act on a name absent from the action space returns not-handled with no
side effect; a present action whose ActionSpec name is one of the six body
actions is applied exactly once via the dispatcher to the agent's own node
with the filter enabled and act returns true; any other present action is
applied independently, with the filter disabled, to every sensor sub-node
attached under the agent's node - one invocation per sub-node against that
sub-node's own transform - and act returns true. -/
theorem spec_c2_act_dispatch :
    (∀ (a : AgentModel) (name : String),
      assocLookup a.configuration.actionSpace name = none →
      a.act name = .notHandled a) ∧
    (∀ (a : AgentModel) (name : String) (sp : ActionSpec) (amt : ℝ),
      assocLookup a.configuration.actionSpace name = some sp →
      sp.name ∈ BodyActions →
      assocLookup sp.actuation "amount" = some amt →
      a.act name = .handled { a with
        body := (a.controls.action a.body sp.name amt true).2.1 }) ∧
    (∀ (a : AgentModel) (name : String) (sp : ActionSpec) (amt : ℝ),
      assocLookup a.configuration.actionSpace name = some sp →
      sp.name ∉ BodyActions →
      assocLookup sp.actuation "amount" = some amt →
      a.act name = .handled { a with
        sensors := a.sensors.map fun p =>
          (p.1, { p.2 with
            node := (a.controls.action p.2.node sp.name amt false).2.1 }) }) := by
  refine ⟨?_, ?_, ?_⟩
  · intro a name hlook
    rw [AgentModel.act, hlook]
  · intro a name sp amt hlook hmem hamt
    rw [AgentModel.act, hlook]
    dsimp only
    rw [if_pos hmem, hamt]
  · intro a name sp amt hlook hmem hamt
    obtain ⟨ab, asens, acfg, actr⟩ := a
    rw [AgentModel.act, hlook]
    dsimp only
    rw [if_neg hmem]
    cases asens with
    | nil => rfl
    | cons s rest =>
      rw [hamt]

/-- C2 witness: the three dispatch branches at a concrete agent with one
sensor and a two-action space. -/
theorem spec_c2_act_dispatch_witness :
    agent1.act "nope" = .notHandled agent1 ∧
    agent1.act "moveF" = .handled { agent1 with
      body := (agent1.controls.action agent1.body "moveForward" 1 true).2.1 } ∧
    agent1.act "peek" = .handled { agent1 with
      sensors := agent1.sensors.map fun p =>
        (p.1, { p.2 with
          node := (agent1.controls.action p.2.node "lookUp" 30 false).2.1 }) } :=
  ⟨spec_c2_act_dispatch.1 agent1 "nope" rfl,
   spec_c2_act_dispatch.2.1 agent1 "moveF" bodySpec 1 rfl (by decide) rfl,
   spec_c2_act_dispatch.2.2 agent1 "peek" sensorSpec 30 rfl (by decide) rfl⟩

/-- C9 counterexample: an agent with no attached sensors and a configured
sensor action whose actuation map lacks the amount key; act on that action
name returns handled (true) without any out-of-range failure, so the claim
that act always reads the actuation map at amount for every configured action
name is false at this input. -/
theorem spec_c9_counterexample :
    assocLookup agentNoSensors.configuration.actionSpace "peekNoAmount" =
      some ⟨"lookUp", []⟩ ∧
    assocLookup (⟨"lookUp", []⟩ : ActionSpec).actuation "amount" = none ∧
    agentNoSensors.act "peekNoAmount" = .handled agentNoSensors :=
  ⟨rfl, rfl, rfl⟩

/-- C9 amended: a configured action whose actuation map lacks the amount key
makes act fail with the out-of-range lookup error when the action is a body
action, and also when it is a sensor action with at least one attached sensor;
a sensor action with no attached sensors never reads the map and returns
handled; and under the precondition that the actuation map contains amount,
act on a configured action always returns handled. -/
theorem spec_c9_amended :
    (∀ (a : AgentModel) (name : String) (sp : ActionSpec),
      assocLookup a.configuration.actionSpace name = some sp →
      assocLookup sp.actuation "amount" = none →
      sp.name ∈ BodyActions →
      a.act name = .outOfRange a) ∧
    (∀ (a : AgentModel) (name : String) (sp : ActionSpec),
      assocLookup a.configuration.actionSpace name = some sp →
      assocLookup sp.actuation "amount" = none →
      sp.name ∉ BodyActions → a.sensors ≠ [] →
      a.act name = .outOfRange a) ∧
    (∀ (a : AgentModel) (name : String) (sp : ActionSpec),
      assocLookup a.configuration.actionSpace name = some sp →
      sp.name ∉ BodyActions → a.sensors = [] →
      a.act name = .handled a) ∧
    (∀ (a : AgentModel) (name : String) (sp : ActionSpec) (amt : ℝ),
      assocLookup a.configuration.actionSpace name = some sp →
      assocLookup sp.actuation "amount" = some amt →
      ∃ a2, a.act name = .handled a2) := by
  refine ⟨?_, ?_, ?_, ?_⟩
  · intro a name sp hlook hnone hmem
    rw [AgentModel.act, hlook]
    dsimp only
    rw [if_pos hmem, hnone]
  · intro a name sp hlook hnone hmem hne
    obtain ⟨ab, asens, acfg, actr⟩ := a
    rw [AgentModel.act, hlook]
    dsimp only
    rw [if_neg hmem]
    cases asens with
    | nil => exact absurd rfl hne
    | cons s rest => rw [hnone]
  · intro a name sp hlook hmem hnil
    obtain ⟨ab, asens, acfg, actr⟩ := a
    rw [AgentModel.act, hlook]
    dsimp only
    rw [if_neg hmem]
    cases asens with
    | nil => rfl
    | cons s rest => exact absurd hnil (List.cons_ne_nil s rest)
  · intro a name sp amt hlook hamt
    obtain ⟨ab, asens, acfg, actr⟩ := a
    by_cases hmem : sp.name ∈ BodyActions
    · rw [AgentModel.act, hlook]
      dsimp only
      rw [if_pos hmem, hamt]
      exact ⟨_, rfl⟩
    · rw [AgentModel.act, hlook]
      dsimp only
      rw [if_neg hmem]
      cases asens with
      | nil => exact ⟨_, rfl⟩
      | cons s rest =>
        rw [hamt]
        exact ⟨_, rfl⟩

/-- C9 amended witness: the missing-amount failure for a concrete body action
and for a concrete sensor action with one attached sensor, the no-sensor
no-read case, and a concrete handled call under the amount precondition. -/
theorem spec_c9_amended_witness :
    agentBadActuation.act "forwardNoAmount" = .outOfRange agentBadActuation ∧
    agentBadActuation.act "peekNoAmount" = .outOfRange agentBadActuation ∧
    agentNoSensors.act "peekNoAmount" = .handled agentNoSensors ∧
    (∃ a2, agent1.act "moveF" = .handled a2) :=
  ⟨spec_c9_amended.1 agentBadActuation "forwardNoAmount" ⟨"moveForward", []⟩
      rfl rfl (by decide),
   spec_c9_amended.2.1 agentBadActuation "peekNoAmount" ⟨"lookUp", []⟩
      rfl rfl (by decide) (by simp [agentBadActuation]),
   spec_c9_amended.2.2.1 agentNoSensors "peekNoAmount" ⟨"lookUp", []⟩
      rfl (by decide) rfl,
   spec_c9_amended.2.2.2 agent1 "moveF" bodySpec 1 rfl rfl⟩

/-- C4: setState on a state whose rotation quaternion is not normalized fails
with the fatal assertion (after having already committed the translation); on
a normalized rotation it succeeds and commits the state's translation and
rotation onto the node. -/
theorem spec_c4_setState_contract :
    ∀ (a : AgentModel) (s : AgentState) (rs : Bool),
      (¬ isNormalizedQ (quatOfVec4 s.rotation) →
        a.setState s rs = .assertFailed
          { a with body := a.body.setTranslation s.position }) ∧
      (isNormalizedQ (quatOfVec4 s.rotation) →
        ∃ a2, a.setState s rs = .ok a2 ∧
          a2.body.translation = s.position ∧
          a2.body.rotation = quatOfVec4 s.rotation) := by
  intro a s rs
  constructor
  · intro h
    simp only [AgentModel.setState]
    rw [if_neg h]
  · intro h
    simp only [AgentModel.setState]
    rw [if_pos h]
    cases rs
    · exact ⟨_, rfl, rfl, rfl⟩
    · exact ⟨_, rfl, rfl, rfl⟩

/-- C4 witness: the assertion fires on a concrete non-normalized state, and a
concrete normalized state is committed. -/
theorem spec_c4_setState_contract_witness :
    agent1.setState badState true =
      .assertFailed { agent1 with body := agent1.body.setTranslation badState.position } ∧
    ∃ a2, agent1.setState goodState true = .ok a2 ∧
      a2.body.translation = goodState.position ∧
      a2.body.rotation = quatOfVec4 goodState.rotation :=
  ⟨(spec_c4_setState_contract agent1 badState true).1
      (by norm_num [isNormalizedQ, badState, quatOfVec4, Quaternion.normSq_def']),
   (spec_c4_setState_contract agent1 goodState true).2
      (by norm_num [isNormalizedQ, goodState, quatOfVec4, Quaternion.normSq_def'])⟩

/-- C6: for every state with a normalized rotation, setState with resetSensors
false followed by getState returns the same position and the same x,y,z,w
rotation vector. -/
theorem spec_c6_set_get_roundtrip :
    ∀ (a : AgentModel) (s : AgentState),
      isNormalizedQ (quatOfVec4 s.rotation) →
      ∃ a2, a.setState s false = .ok a2 ∧ a2.getState = s := by
  intro a s h
  simp only [AgentModel.setState]
  rw [if_pos h]
  refine ⟨_, rfl, ?_⟩
  rw [AgentModel.getState]
  apply AgentState.ext
  · rfl
  · apply Vec4.ext <;> rfl

/-- C6 witness: the set-then-get round-trip at a concrete agent and state. -/
theorem spec_c6_set_get_roundtrip_witness :
    ∃ a2, agent1.setState goodState false = .ok a2 ∧ a2.getState = goodState :=
  spec_c6_set_get_roundtrip agent1 goodState
    (by norm_num [isNormalizedQ, goodState, quatOfVec4, Quaternion.normSq_def'])

/-- C10: setState is not atomic on error - the translation is committed before
the rotation is validated, so on the fatal assertion the carried node state
has the new translation while its rotation and the sensor list are unchanged. -/
theorem spec_c10_setState_not_atomic :
    ∀ (a : AgentModel) (s : AgentState) (rs : Bool),
      ¬ isNormalizedQ (quatOfVec4 s.rotation) →
      a.setState s rs = .assertFailed
        { a with body := a.body.setTranslation s.position } ∧
      ({ a with body := a.body.setTranslation s.position } : AgentModel).body.translation
        = s.position ∧
      ({ a with body := a.body.setTranslation s.position } : AgentModel).body.rotation
        = a.body.rotation ∧
      ({ a with body := a.body.setTranslation s.position } : AgentModel).sensors
        = a.sensors := by
  intro a s rs h
  refine ⟨?_, rfl, rfl, rfl⟩
  simp only [AgentModel.setState]
  rw [if_neg h]

/-- C10 witness: the observable partial mutation at a concrete agent and a
concrete non-normalized state. -/
theorem spec_c10_setState_not_atomic_witness :
    agent1.setState badState false =
      .assertFailed { agent1 with body := agent1.body.setTranslation badState.position } :=
  (spec_c10_setState_not_atomic agent1 badState false
    (by norm_num [isNormalizedQ, badState, quatOfVec4, Quaternion.normSq_def'])).1
